import Mathlib

/-!
Verification of the SIR comparison script
`LogisticGrowthGraph_BubonicPlaguevsCovid19.py` (bubonic plague vs COVID-19
in the Denver population).

The script is a linear pipeline: it defines the SIR derivative function
`sir_model`, integrates it twice with `solve_ivp` (once per disease scenario),
and derives summary statistics (final values, totals, deaths, peak day and
peak infected) that it prints to standard output.

This file gives a shallow embedding of that pipeline.  Exact arithmetic is
carried out over `ℚ` (and over `ℝ` for the calculus facts about exact ODE
solutions); the adaptive ODE solver is treated as an opaque function producing
an `OdeResult`, and all derived statistics are total functions of that result.
-/

namespace SirScript

/-- Total population of Denver: the module constant `N = 729000`. -/
def N : ℚ := 729000

/-- Initial number of infected: `I0 = 1`. -/
def I0 : ℚ := 1

/-- Initial number of susceptible: `S0 = N - I0`. -/
def S0 : ℚ := N - I0

/-- Initial number of recovered: `R0 = 0`. -/
def R0 : ℚ := 0

/-- Bubonic-plague transmission rate `beta_plague = 0.3`. -/
def beta_plague : ℚ := 0.3

/-- Bubonic-plague recovery rate `gamma_plague = 0.1`. -/
def gamma_plague : ℚ := 0.1

/-- COVID-19 transmission rate `beta_covid = 0.5`. -/
def beta_covid : ℚ := 0.5

/-- COVID-19 recovery rate `gamma_covid = 0.1`. -/
def gamma_covid : ℚ := 0.1

/-- The SIR derivative function `sir_model(t, y, beta, gamma)` of the script,
over an arbitrary field so that it serves both the exact rational pipeline and
the real-valued ODE solution.  The module constant `N = 729000` is inlined as
the literal.  The state `y` is the triple `(S, I, R)`, and the returned list
`[dSdt, dIdt, dRdt]` is embedded as a triple.  The time argument `t` is
unused, exactly as in the source. -/
def sir_model {α : Type} [Field α] (t : α) (y : α × α × α) (beta gamma : α) :
    α × α × α :=
  let S := y.1
  let I := y.2.1
  let dSdt := -beta * S * I / 729000
  let dIdt := beta * S * I / 729000 - gamma * I
  let dRdt := gamma * I
  (dSdt, dIdt, dRdt)

/-- Integration interval `t_span = [0, 160]`. -/
def t_span : ℚ × ℚ := (0, 160)

/-- Report times `t_eval = np.linspace(0, 160, 160)`: 160 evenly spaced
points from `t_span[0]` to `t_span[1]` inclusive, i.e. sample `i` is
`t_span[0] + (t_span[1] - t_span[0]) * i / 159`. -/
def t_eval : List ℚ :=
  (List.range 160).map (fun i => t_span.1 + (t_span.2 - t_span.1) * i / 159)

/-- Result of one `solve_ivp` call: the report times `t` and the three rows
`y[0]`, `y[1]`, `y[2]` of the solution array (susceptible, infected,
recovered). -/
structure OdeResult where
  t : List ℚ
  y0 : List ℚ
  y1 : List ℚ
  y2 : List ℚ

/-- Maximum value of a list (`0` on the empty list, which never occurs in
the pipeline). -/
def listMax : List ℚ → ℚ
  | [] => 0
  | x :: xs => xs.foldl max x

/-- Model of `np.argmax` for a one-dimensional array, from its documented
semantics (the solver and numpy are library code, not part of this
repository): the index of the first occurrence of the maximum value; `0` on
the empty list. -/
def npArgmax : List ℚ → ℕ
  | [] => 0
  | [_] => 0
  | x :: y :: ys => if listMax (y :: ys) ≤ x then 0 else npArgmax (y :: ys) + 1

/-- Final susceptible count for the plague run: `sol_plague.y[0, -1]`. -/
def S_final_plague (sol_plague : OdeResult) : ℚ := sol_plague.y0.getLastD 0

/-- Final infected count for the plague run: `sol_plague.y[1, -1]`. -/
def I_final_plague (sol_plague : OdeResult) : ℚ := sol_plague.y1.getLastD 0

/-- Final recovered count for the plague run as the script computes it: the
source line is `R_final_plague = sol_plague.y[1, -1]`, which reads row 1 (the
infected row), not row 2. -/
def R_final_plague (sol_plague : OdeResult) : ℚ := sol_plague.y1.getLastD 0

/-- Final susceptible count for the COVID-19 run: `sol_covid.y[0, -1]`. -/
def S_final_covid (sol_covid : OdeResult) : ℚ := sol_covid.y0.getLastD 0

/-- Final infected count for the COVID-19 run: `sol_covid.y[1, -1]`. -/
def I_final_covid (sol_covid : OdeResult) : ℚ := sol_covid.y1.getLastD 0

/-- Final recovered count for the COVID-19 run: `sol_covid.y[2, -1]`. -/
def R_final_covid (sol_covid : OdeResult) : ℚ := sol_covid.y2.getLastD 0

/-- Total infected during the bubonic plague: `N - S_final_plague`. -/
def total_infected_plague (sol_plague : OdeResult) : ℚ :=
  N - S_final_plague sol_plague

/-- Total infected during COVID-19: `N - S_final_covid`. -/
def total_infected_covid (sol_covid : OdeResult) : ℚ :=
  N - S_final_covid sol_covid

/-- Total deaths assuming 10% fatality rate for bubonic plague. -/
def deaths_plague (sol_plague : OdeResult) : ℚ :=
  total_infected_plague sol_plague * 0.1

/-- Total deaths assuming 1.4% fatality rate for COVID-19. -/
def deaths_covid (sol_covid : OdeResult) : ℚ :=
  total_infected_covid sol_covid * 0.014

/-- Day of peak infection for the plague run:
`sol_plague.t[np.argmax(sol_plague.y[1])]`. -/
def peak_day_plague (sol_plague : OdeResult) : ℚ :=
  sol_plague.t.getD (npArgmax sol_plague.y1) 0

/-- Day of peak infection for the COVID-19 run:
`sol_covid.t[np.argmax(sol_covid.y[1])]`. -/
def peak_day_covid (sol_covid : OdeResult) : ℚ :=
  sol_covid.t.getD (npArgmax sol_covid.y1) 0

/-- Infected count at the peak for the plague run:
`sol_plague.y[1][np.argmax(sol_plague.y[1])]`. -/
def peak_infected_plague (sol_plague : OdeResult) : ℚ :=
  sol_plague.y1.getD (npArgmax sol_plague.y1) 0

/-- Infected count at the peak for the COVID-19 run:
`sol_covid.y[1][np.argmax(sol_covid.y[1])]`. -/
def peak_infected_covid (sol_covid : OdeResult) : ℚ :=
  sol_covid.y1.getD (npArgmax sol_covid.y1) 0

/-- Deaths at the peak for the plague run: `peak_infected_plague * 0.1`. -/
def deaths_peak_plague (sol_plague : OdeResult) : ℚ :=
  peak_infected_plague sol_plague * 0.1

/-- Deaths at the peak for the COVID-19 run: `peak_infected_covid * 0.014`. -/
def deaths_peak_covid (sol_covid : OdeResult) : ℚ :=
  peak_infected_covid sol_covid * 0.014

/-- Rounding performed by the Python format specifier `:.0f`: round to the
nearest integer, ties to even (IEEE round-half-even, exact on rationals). -/
def roundHalfEven (x : ℚ) : ℤ :=
  let f := ⌊x⌋
  let frac := x - f
  if frac < 1/2 then f
  else if (1/2 : ℚ) < frac then f + 1
  else if f % 2 = 0 then f else f + 1

/-- Character stream the script writes to standard output: one `print` call
per line of source (lines 112 to 127), each emitting its argument followed by
a newline.  The second header is printed as `"\nCOVID-19 Final Results:"`
(leading newline inside the argument), and the last call prints the empty
string. -/
def printedStream (sol_plague sol_covid : OdeResult) : String :=
  "Bubonic Plague Final Results:" ++ "\n" ++
  ("Total Infected: " ++ toString (roundHalfEven (total_infected_plague sol_plague))) ++ "\n" ++
  ("Total Deaths (10% fatality): " ++ toString (roundHalfEven (deaths_plague sol_plague))) ++ "\n" ++
  ("Peak Infection Day: " ++ toString (roundHalfEven (peak_day_plague sol_plague))) ++ "\n" ++
  ("Peak Infected: " ++ toString (roundHalfEven (peak_infected_plague sol_plague))) ++ "\n" ++
  ("Deaths at Peak: " ++ toString (roundHalfEven (deaths_peak_plague sol_plague))) ++ "\n" ++
  ("\nCOVID-19 Final Results:") ++ "\n" ++
  ("Total Infected: " ++ toString (roundHalfEven (total_infected_covid sol_covid))) ++ "\n" ++
  ("Total Deaths (1.4% fatality): " ++ toString (roundHalfEven (deaths_covid sol_covid))) ++ "\n" ++
  ("Peak Infection Day: " ++ toString (roundHalfEven (peak_day_covid sol_covid))) ++ "\n" ++
  ("Peak Infected: " ++ toString (roundHalfEven (peak_infected_covid sol_covid))) ++ "\n" ++
  ("Deaths at Peak: " ++ toString (roundHalfEven (deaths_peak_covid sol_covid))) ++ "\n" ++
  ("" ++ "\n")

/-- Rendering of a list of lines as a character stream, each line followed by
a newline.  Used to state the output-format claim. -/
def renderLines : List String → String
  | [] => ""
  | l :: ls => l ++ "\n" ++ renderLines ls

/-- Type of the right-hand side passed to the solver: the closure
`fun t y => sir_model t y beta gamma`. -/
def RHSFun : Type := ℚ → ℚ × ℚ × ℚ → ℚ × ℚ × ℚ

/-- Type of the opaque adaptive ODE solver `solve_ivp`: it receives the
right-hand side, the time span, the initial state and the report times, and
returns a sampled solution. -/
def Solver : Type := RHSFun → ℚ × ℚ → ℚ × ℚ × ℚ → List ℚ → OdeResult

/-- One run of the whole pipeline, as a function of the solver: solve the two
scenarios with the hardcoded constants and produce the printed output. -/
def run (solve_ivp : Solver) : String :=
  let sol_plague :=
    solve_ivp (fun t y => sir_model t y beta_plague gamma_plague) t_span (S0, I0, R0) t_eval
  let sol_covid :=
    solve_ivp (fun t y => sir_model t y beta_covid gamma_covid) t_span (S0, I0, R0) t_eval
  printedStream sol_plague sol_covid

/-- Concrete solver output exhibiting the `R_final_plague` slip: 160 samples
whose infected row ends in `5` and whose recovered row ends in `7`. -/
def solBug : OdeResult :=
  { t := t_eval
    y0 := List.replicate 159 10 ++ [3]
    y1 := List.replicate 159 2 ++ [5]
    y2 := List.replicate 159 2 ++ [7] }

/-- Small concrete solver output used to instantiate the peak-statistics
theorem: the infected row `[1, 3, 2]` peaks at index 1. -/
def solW : OdeResult := ⟨[0, 1, 2], [5, 4, 3], [1, 3, 2], [0, 1, 2]⟩

/-- Concrete solver output for the R-independence witness. -/
def solA : OdeResult := ⟨[0], [10], [4], [1]⟩

/-- Concrete solver output identical to `solA` except in the recovered row. -/
def solA2 : OdeResult := ⟨[0], [10], [4], [999]⟩

/-- Trivial concrete solver used to instantiate the determinism theorem. -/
def trivialSolver : Solver := fun _ _ _ _ => ⟨[], [], [], []⟩

/-! Helper lemmas about `listMax` and `npArgmax`. -/

/-- Accumulator inequality for `foldl max`: the seed is below the fold. -/
theorem init_le_foldl_max (xs : List ℚ) : ∀ a : ℚ, a ≤ xs.foldl max a := by
  induction xs with
  | nil => intro a; simp
  | cons y ys ih =>
    intro a
    calc a ≤ max a y := le_max_left a y
    _ ≤ (y :: ys).foldl max a := by simpa using ih (max a y)

/-- Member inequality for `foldl max`: every element is below the fold. -/
theorem mem_le_foldl_max (xs : List ℚ) : ∀ a b : ℚ, b ∈ xs → b ≤ xs.foldl max a := by
  induction xs with
  | nil => intro a b hb; simp at hb
  | cons y ys ih =>
    intro a b hb
    rcases List.mem_cons.mp hb with h | h
    · subst h
      calc b ≤ max a b := le_max_right a b
      _ ≤ ys.foldl max (max a b) := init_le_foldl_max ys (max a b)
      _ = (b :: ys).foldl max a := rfl
    · simpa using ih (max a y) b h

/-- Fold of `max` belongs to the seed-plus-list. -/
theorem foldl_max_mem (xs : List ℚ) : ∀ a : ℚ, xs.foldl max a ∈ a :: xs := by
  induction xs with
  | nil => intro a; simp
  | cons y ys ih =>
    intro a
    have h := ih (max a y)
    have hfold : (y :: ys).foldl max a = ys.foldl max (max a y) := rfl
    rw [hfold]
    rcases List.mem_cons.mp h with h' | h'
    · rw [h']
      rcases max_choice a y with hm | hm <;> rw [hm]
      · exact List.mem_cons_self a (y :: ys)
      · exact List.mem_cons_of_mem a (List.mem_cons_self y ys)
    · exact List.mem_cons_of_mem a (List.mem_cons_of_mem y h')

/-- Pulling the first component of the seed out of a `foldl max`. -/
theorem foldl_max_max (xs : List ℚ) :
    ∀ a b : ℚ, xs.foldl max (max a b) = max a (xs.foldl max b) := by
  induction xs with
  | nil => intro a b; rfl
  | cons y ys ih =>
    intro a b
    calc (y :: ys).foldl max (max a b) = ys.foldl max (max (max a b) y) := rfl
    _ = ys.foldl max (max a (max b y)) := by rw [max_assoc]
    _ = max a (ys.foldl max (max b y)) := ih a (max b y)
    _ = max a ((y :: ys).foldl max b) := rfl

/-- Cons-cons unfolding of `listMax`. -/
theorem listMax_cons_cons (x y : ℚ) (ys : List ℚ) :
    listMax (x :: y :: ys) = max x (listMax (y :: ys)) := by
  show (y :: ys).foldl max x = max x (ys.foldl max y)
  calc (y :: ys).foldl max x = ys.foldl max (max x y) := rfl
  _ = max x (ys.foldl max y) := foldl_max_max ys x y

/-- Every element of a list is bounded by its `listMax`. -/
theorem le_listMax_of_mem {l : List ℚ} {b : ℚ} (hb : b ∈ l) : b ≤ listMax l := by
  cases l with
  | nil => simp at hb
  | cons x xs =>
    rcases List.mem_cons.mp hb with h | h
    · subst h; exact init_le_foldl_max xs b
    · exact mem_le_foldl_max xs x b h

/-- On a nonempty list, `listMax` is attained by some element. -/
theorem listMax_mem {l : List ℚ} (h : l ≠ []) : listMax l ∈ l := by
  cases l with
  | nil => exact absurd rfl h
  | cons x xs => exact foldl_max_mem xs x

/-- Index returned by `npArgmax` is in bounds on a nonempty list. -/
theorem npArgmax_lt_length : ∀ l : List ℚ, l ≠ [] → npArgmax l < l.length
  | [], h => absurd rfl h
  | [_], _ => by simp [npArgmax]
  | x :: y :: ys, _ => by
    by_cases h : listMax (y :: ys) ≤ x
    · simp [npArgmax, h]
    · have ih : npArgmax (y :: ys) < ys.length + 1 := by
        simpa using npArgmax_lt_length (y :: ys) (by simp)
      simp only [npArgmax, if_neg h, List.length_cons]
      omega

/-- The value at the `npArgmax` index is the maximum of the list. -/
theorem getD_npArgmax_eq_listMax :
    ∀ l : List ℚ, l ≠ [] → l.getD (npArgmax l) 0 = listMax l
  | [], h => absurd rfl h
  | [x], _ => by simp [npArgmax, listMax]
  | x :: y :: ys, _ => by
    by_cases h : listMax (y :: ys) ≤ x
    · simp [npArgmax, h, listMax_cons_cons, max_eq_left h]
    · have ih := getD_npArgmax_eq_listMax (y :: ys) (by simp)
      push_neg at h
      simp only [npArgmax, if_neg (not_le.mpr h), List.getD_cons_succ,
        listMax_cons_cons, max_eq_right h.le]
      exact ih

/-- First-occurrence property of `npArgmax`: every element strictly before
the returned index is strictly below the maximum. -/
theorem getD_lt_listMax_of_lt_npArgmax :
    ∀ (l : List ℚ) (j : ℕ), j < npArgmax l → l.getD j 0 < listMax l
  | [], j => by simp [npArgmax]
  | [_], j => by simp [npArgmax]
  | x :: y :: ys, j => by
    by_cases h : listMax (y :: ys) ≤ x
    · simp [npArgmax, h]
    · intro hj
      push_neg at h
      rw [npArgmax, if_neg (not_le.mpr h)] at hj
      match j with
      | 0 => simpa [listMax_cons_cons, max_eq_right h.le] using h
      | j + 1 =>
        have ih := getD_lt_listMax_of_lt_npArgmax (y :: ys) j (by omega)
        simpa [listMax_cons_cons, max_eq_right h.le] using ih

/-- Every in-bounds entry of a list is bounded by `listMax`. -/
theorem getD_le_listMax (l : List ℚ) (j : ℕ) (hj : j < l.length) :
    l.getD j 0 ≤ listMax l := by
  rw [List.getD_eq_getElem l 0 hj]
  exact le_listMax_of_mem (List.getElem_mem hj)

/-- Last element as the entry at index `length - 1`. -/
theorem getLastD_eq_getD_pred :
    ∀ (l : List ℚ) (d : ℚ), l ≠ [] → l.getLastD d = l.getD (l.length - 1) d
  | [], _, h => absurd rfl h
  | [_], _, _ => rfl
  | a :: b :: t, d, _ => by
    have ih := getLastD_eq_getD_pred (b :: t) a (by simp)
    have hlt : (b :: t).length - 1 < (b :: t).length := by simp
    have hcons : (a :: b :: t).getLastD d = (b :: t).getLastD a := by
      cases t <;> rfl
    rw [hcons, ih]
    have hidx : (a :: b :: t).length - 1 = ((b :: t).length - 1) + 1 := by
      simp
    rw [hidx, List.getD_cons_succ]
    rw [List.getD_eq_getElem (b :: t) a hlt, List.getD_eq_getElem (b :: t) d hlt]

/-! Helper lemmas about the printed character stream. -/

/-- Merging the newline of the previous `print` with the leading newline of
the literal `"\nCOVID-19 Final Results:"`. -/
theorem newline_covid_append (s : String) :
    "\n" ++ ("COVID-19 Final Results:" ++ s) = "\nCOVID-19 Final Results:" ++ s := by
  rw [← String.append_assoc]
  have h : ("\n" ++ "COVID-19 Final Results:" : String) = "\nCOVID-19 Final Results:" := by
    decide
  rw [h]

/-! Claim theorems. -/

/-- C1: for every state `(S, I, R)` and parameter pair `(beta, gamma)`, the
SIR derivative function returns exactly the vector
`(-beta*S*I/N, beta*S*I/N - gamma*I, gamma*I)` with `N` the fixed total
population `729000`, ignoring its time argument (and, being a Lean function,
having no side effects). -/
theorem claim_C1_sir_model_formula :
    ∀ t t' S I R beta gamma : ℝ,
      sir_model t (S, I, R) beta gamma =
        (-(beta * S * I) / 729000, beta * S * I / 729000 - gamma * I, gamma * I)
      ∧ sir_model t (S, I, R) beta gamma = sir_model t' (S, I, R) beta gamma := by
  intro t t' S I R beta gamma
  refine ⟨?_, rfl⟩
  simp only [sir_model, Prod.mk.injEq]
  ring_nf
  simp

/-- C2 (code bug exhibit): the script assigns `sol_plague.y[1, -1]` — the
final infected value — to `R_final_plague`, so on a solution whose infected
row ends in `5` and whose recovered row ends in `7`, `R_final_plague` is `5`
and differs from the recovered value at the final sample (index 159). -/
theorem claim_C2_R_final_plague_reads_infected_row :
    R_final_plague solBug = 5
    ∧ solBug.y1.getD 159 0 = 5
    ∧ solBug.y2.getD 159 0 = 7
    ∧ solBug.y2.getLastD 0 = 7
    ∧ R_final_plague solBug ≠ solBug.y2.getD 159 0
    ∧ S_final_plague solBug = solBug.y0.getD 159 0
    ∧ I_final_plague solBug = solBug.y1.getD 159 0
    ∧ R_final_covid solBug = solBug.y2.getD 159 0 := by
  decide

/-- C3: for a scenario with a nonempty sampled infected series, the reported
peak day is the sample time at the index `np.argmax` returns, that index
attains the maximum of the sampled infected series (so the reported peak
infected is that maximum), every entry is bounded by the peak infected value,
entries strictly before the argmax index are strictly below it (ties resolved
by the first index), and the index is in bounds. -/
theorem claim_C3_peak_argmax (sol : OdeResult) (hne : sol.y1 ≠ []) :
    peak_day_plague sol = sol.t.getD (npArgmax sol.y1) 0
    ∧ peak_day_covid sol = sol.t.getD (npArgmax sol.y1) 0
    ∧ peak_infected_plague sol = listMax sol.y1
    ∧ peak_infected_covid sol = listMax sol.y1
    ∧ (∀ j, j < sol.y1.length → sol.y1.getD j 0 ≤ peak_infected_plague sol)
    ∧ (∀ j, j < npArgmax sol.y1 → sol.y1.getD j 0 < peak_infected_plague sol)
    ∧ npArgmax sol.y1 < sol.y1.length := by
  have hmax : peak_infected_plague sol = listMax sol.y1 :=
    getD_npArgmax_eq_listMax sol.y1 hne
  refine ⟨rfl, rfl, hmax, hmax, ?_, ?_, npArgmax_lt_length sol.y1 hne⟩
  · intro j hj
    rw [hmax]
    exact getD_le_listMax sol.y1 j hj
  · intro j hj
    rw [hmax]
    exact getD_lt_listMax_of_lt_npArgmax sol.y1 j hj

/-- C3 witness: the peak statistics theorem instantiated at the concrete
solution `solW`, whose infected row `[1, 3, 2]` is nonempty. -/
theorem claim_C3_peak_argmax_witness :
    solW.y1 ≠ []
    ∧ peak_infected_plague solW = listMax solW.y1
    ∧ npArgmax solW.y1 < solW.y1.length :=
  ⟨by decide, (claim_C3_peak_argmax solW (by decide)).2.2.1,
    (claim_C3_peak_argmax solW (by decide)).2.2.2.2.2.2⟩

/-- C4: for each scenario, `total_infected` equals `N` minus the final
susceptible value, total deaths equals `total_infected` times the fixed
fatality ratio (`0.1` for plague, `0.014` for COVID), and deaths at peak
equals the peak infected count times the same ratio. -/
theorem claim_C4_totals_and_deaths :
    ∀ sol_plague sol_covid : OdeResult,
      total_infected_plague sol_plague = N - S_final_plague sol_plague
      ∧ deaths_plague sol_plague = total_infected_plague sol_plague * 0.1
      ∧ deaths_peak_plague sol_plague = peak_infected_plague sol_plague * 0.1
      ∧ total_infected_covid sol_covid = N - S_final_covid sol_covid
      ∧ deaths_covid sol_covid = total_infected_covid sol_covid * 0.014
      ∧ deaths_peak_covid sol_covid = peak_infected_covid sol_covid * 0.014 := by
  intro sol_plague sol_covid
  exact ⟨rfl, rfl, rfl, rfl, rfl, rfl⟩

/-- C5: the three components returned by the SIR derivative function sum to
exactly zero for every state and parameters, and consequently any exact
solution of the ODE system (functions whose derivative at every time is the
corresponding component of `sir_model`) with initial total population `N`
satisfies `S(t) + I(t) + R(t) = N` for all `t`. -/
theorem claim_C5_conservation :
    (∀ t S I R beta gamma : ℝ,
      (sir_model t (S, I, R) beta gamma).1 + (sir_model t (S, I, R) beta gamma).2.1
        + (sir_model t (S, I, R) beta gamma).2.2 = 0)
    ∧ (∀ (S I R : ℝ → ℝ) (beta gamma : ℝ),
      (∀ u, HasDerivAt S ((sir_model u (S u, I u, R u) beta gamma).1) u) →
      (∀ u, HasDerivAt I ((sir_model u (S u, I u, R u) beta gamma).2.1) u) →
      (∀ u, HasDerivAt R ((sir_model u (S u, I u, R u) beta gamma).2.2) u) →
      S 0 + I 0 + R 0 = (N : ℝ) →
      ∀ u, S u + I u + R u = (N : ℝ)) := by
  constructor
  · intro t S I R beta gamma
    simp only [sir_model]
    ring
  · intro S I R beta gamma hS hI hR h0 u
    have hsum : ∀ v, HasDerivAt (fun w => S w + I w + R w) 0 v := by
      intro v
      have h := ((hS v).add (hI v)).add (hR v)
      convert h using 1
      simp only [sir_model]
      ring
    have hdiff : Differentiable ℝ fun w => S w + I w + R w :=
      fun v => (hsum v).differentiableAt
    have hconst := is_const_of_deriv_eq_zero hdiff (fun v => (hsum v).deriv) u 0
    calc S u + I u + R u = S 0 + I 0 + R 0 := hconst
    _ = (N : ℝ) := h0

/-- C5 witness: the conservation theorem instantiated at the constant exact
solution `S = 729000`, `I = 0`, `R = 0` with `beta = gamma = 1`, evaluated at
time `1`. -/
theorem claim_C5_conservation_witness : (729000 : ℝ) + 0 + 0 = (N : ℝ) := by
  have h := claim_C5_conservation.2 (fun _ => (729000 : ℝ)) (fun _ => (0 : ℝ))
    (fun _ => (0 : ℝ)) 1 1
    (fun u => by simpa [sir_model] using hasDerivAt_const u (729000 : ℝ))
    (fun u => by simpa [sir_model] using hasDerivAt_const u (0 : ℝ))
    (fun u => by simpa [sir_model] using hasDerivAt_const u (0 : ℝ))
    (by norm_num [N]) 1
  simpa using h

/-- C6: for every non-negative state and positive parameters the first
component returned by the SIR derivative function is nonpositive and the
third is nonnegative; consequently, along any exact solution with
non-negative susceptible and infected series, the susceptible series is
non-increasing and the recovered series is non-decreasing. -/
theorem claim_C6_monotonicity :
    (∀ t S I R beta gamma : ℝ, 0 ≤ S → 0 ≤ I → 0 < beta → 0 < gamma →
      (sir_model t (S, I, R) beta gamma).1 ≤ 0
        ∧ 0 ≤ (sir_model t (S, I, R) beta gamma).2.2)
    ∧ (∀ (S I R : ℝ → ℝ) (beta gamma : ℝ),
      (∀ u, 0 ≤ S u) → (∀ u, 0 ≤ I u) → 0 < beta → 0 < gamma →
      (∀ u, HasDerivAt S ((sir_model u (S u, I u, R u) beta gamma).1) u) →
      (∀ u, HasDerivAt R ((sir_model u (S u, I u, R u) beta gamma).2.2) u) →
      Antitone S ∧ Monotone R) := by
  have hsign : ∀ t S I R beta gamma : ℝ, 0 ≤ S → 0 ≤ I → 0 < beta → 0 < gamma →
      (sir_model t (S, I, R) beta gamma).1 ≤ 0
        ∧ 0 ≤ (sir_model t (S, I, R) beta gamma).2.2 := by
    intro t S I R beta gamma hS hI hbeta hgamma
    constructor
    · show -beta * S * I / 729000 ≤ 0
      have h1 : 0 ≤ beta * S * I / 729000 := by positivity
      have h2 : -beta * S * I / 729000 = -(beta * S * I / 729000) := by ring
      rw [h2]
      linarith
    · show 0 ≤ gamma * I
      positivity
  refine ⟨hsign, ?_⟩
  intro S I R beta gamma hSpos hIpos hbeta hgamma hdS hdR
  constructor
  · refine antitone_of_deriv_nonpos (fun u => (hdS u).differentiableAt) ?_
    intro u
    rw [(hdS u).deriv]
    exact (hsign u (S u) (I u) (R u) beta gamma (hSpos u) (hIpos u) hbeta hgamma).1
  · refine monotone_of_deriv_nonneg (fun u => (hdR u).differentiableAt) ?_
    intro u
    rw [(hdR u).deriv]
    exact (hsign u (S u) (I u) (R u) beta gamma (hSpos u) (hIpos u) hbeta hgamma).2

/-- C6 witness: the monotonicity theorem instantiated at the constant exact
solution `S = 729000`, `I = 0`, `R = 0` with `beta = gamma = 1`. -/
theorem claim_C6_monotonicity_witness :
    Antitone (fun _ : ℝ => (729000 : ℝ)) ∧ Monotone (fun _ : ℝ => (0 : ℝ)) :=
  claim_C6_monotonicity.2 (fun _ => (729000 : ℝ)) (fun _ => (0 : ℝ)) (fun _ => (0 : ℝ)) 1 1
    (fun _ => by norm_num) (fun _ => le_refl 0) one_pos one_pos
    (fun u => by simpa [sir_model] using hasDerivAt_const u (729000 : ℝ))
    (fun u => by simpa [sir_model] using hasDerivAt_const u (0 : ℝ))

/-- C7: the printed character stream consists of exactly two blocks (plague
first, then COVID), each a header followed by five labeled numeric lines in
the order Total Infected, Total Deaths, Peak Infection Day, Peak Infected,
Deaths at Peak — each value an integer rounded to the nearest whole number —
with a blank separator line at the end of each block. -/
theorem claim_C7_output_format (sol_plague sol_covid : OdeResult) :
    printedStream sol_plague sol_covid = renderLines
      ["Bubonic Plague Final Results:",
       "Total Infected: " ++ toString (roundHalfEven (total_infected_plague sol_plague)),
       "Total Deaths (10% fatality): " ++ toString (roundHalfEven (deaths_plague sol_plague)),
       "Peak Infection Day: " ++ toString (roundHalfEven (peak_day_plague sol_plague)),
       "Peak Infected: " ++ toString (roundHalfEven (peak_infected_plague sol_plague)),
       "Deaths at Peak: " ++ toString (roundHalfEven (deaths_peak_plague sol_plague)),
       "",
       "COVID-19 Final Results:",
       "Total Infected: " ++ toString (roundHalfEven (total_infected_covid sol_covid)),
       "Total Deaths (1.4% fatality): " ++ toString (roundHalfEven (deaths_covid sol_covid)),
       "Peak Infection Day: " ++ toString (roundHalfEven (peak_day_covid sol_covid)),
       "Peak Infected: " ++ toString (roundHalfEven (peak_infected_covid sol_covid)),
       "Deaths at Peak: " ++ toString (roundHalfEven (deaths_peak_covid sol_covid)),
       ""] := by
  simp only [printedStream, renderLines, String.append_assoc, String.empty_append,
    String.append_empty, newline_covid_append]

/-- C8: the pipeline is deterministic — two runs with a solver that behaves
identically on equal inputs (in particular two runs of the very same solver
on the fixed hardcoded constants) produce identical printed output. -/
theorem claim_C8_deterministic (s1 s2 : Solver)
    (h : ∀ f ts y0 te, s1 f ts y0 te = s2 f ts y0 te) :
    run s1 = run s2 := by
  simp only [run, h]

/-- C8 witness: determinism instantiated at a concrete solver. -/
theorem claim_C8_deterministic_witness : run trivialSolver = run trivialSolver :=
  claim_C8_deterministic trivialSolver trivialSolver (fun _ _ _ _ => rfl)

/-- C9: the printed output is determined entirely by the sample times, the
final susceptible value and the infected series of each solution; two pairs
of solutions agreeing on those (in particular, differing only in their
recovered series) print identically — the value assigned to `R_final_plague`
reads the infected row and is never printed. -/
theorem claim_C9_output_independent_of_R
    (sp sp2 sc sc2 : OdeResult)
    (htp : sp.t = sp2.t) (hSp : sp.y0.getLastD 0 = sp2.y0.getLastD 0) (hIp : sp.y1 = sp2.y1)
    (htc : sc.t = sc2.t) (hSc : sc.y0.getLastD 0 = sc2.y0.getLastD 0) (hIc : sc.y1 = sc2.y1) :
    printedStream sp sc = printedStream sp2 sc2 := by
  simp only [printedStream, total_infected_plague, total_infected_covid, S_final_plague,
    S_final_covid, deaths_plague, deaths_covid, peak_day_plague, peak_day_covid,
    peak_infected_plague, peak_infected_covid, deaths_peak_plague, deaths_peak_covid,
    htp, hSp, hIp, htc, hSc, hIc]

/-- C9 witness: the independence theorem applied to `solA` and `solA2`, which
differ only in their recovered row. -/
theorem claim_C9_output_independent_of_R_witness :
    printedStream solA solA = printedStream solA2 solA2 :=
  claim_C9_output_independent_of_R solA solA2 solA solA2 rfl rfl rfl rfl rfl rfl

/-- C10: the division inside the SIR derivative function is by the nonzero
constant `N = 729000` (so the embedded function is total), and `np.argmax`
over a nonempty sampled series always yields an in-bounds index — in
particular at most `159` on the 160-element series. -/
theorem claim_C10_safety :
    N ≠ 0 ∧ (729000 : ℝ) ≠ 0
    ∧ (∀ l : List ℚ, l ≠ [] → npArgmax l < l.length)
    ∧ (∀ l : List ℚ, l.length = 160 → npArgmax l ≤ 159) := by
  refine ⟨by norm_num [N], by norm_num, npArgmax_lt_length, ?_⟩
  intro l hl
  have hne : l ≠ [] := by
    intro h
    rw [h] at hl
    simp at hl
  have h := npArgmax_lt_length l hne
  omega

/-- C10 witness: the in-bounds property instantiated at the nonempty series
`[1, 3, 2]`. -/
theorem claim_C10_safety_witness :
    ([1, 3, 2] : List ℚ) ≠ []
    ∧ npArgmax ([1, 3, 2] : List ℚ) < ([1, 3, 2] : List ℚ).length :=
  ⟨by decide, claim_C10_safety.2.2.1 [1, 3, 2] (by decide)⟩

end SirScript
